import Mathlib

/-!
Verification development for the email-client-cli order-processing core.

Shallow embedding of:
* `src/price_list_reader.py` — the product-resolution engine
  (`PriceListReader.find_product` and its five matching tiers, plus
  `find_best_match`);
* `src/order_tracker.py` — the order-tracking store
  (`has_order_been_sent`, `mark_order_as_sent`, `save_failed_order`,
  `update_order_status`, `cleanup_old_records`, `_log_action`);
* `main.py` — the orchestrator's per-order processing
  (`EmailProcessor._process_tileware_order`, `process_emails`).

Modelling conventions:
* Python strings are Lean `String`/`List Char`; all inputs of interest are
  ASCII, so `Char.toUpper`/`Char.toLower` model `str.upper()`/`str.lower()`.
* Float threshold comparisons (`>= len * 0.7`, `>= 0.6`, `score > best`)
  are modelled as exact rational comparisons, represented as
  numerator/denominator pairs compared by cross-multiplication; for the
  integer/short-fraction operands that arise here the float and exact
  rational comparisons agree.
* The pandas DataFrame of the Laticrete price sheet is a list of rows with
  the columns the code actually reads: `LATICRETE Item No` (`itemNo`),
  `Brand` (`brand`, `none` models NaN), `Description` (`description`).
  Rows with NaN description are filtered out at load time
  (`load_price_list`), so `description` is a plain `String`.
  `astype(str)` renders NaN as the string "nan"; `.fillna('')` as "".
* SQLite timestamps (`CURRENT_TIMESTAMP`) are modelled by a logical clock
  in the store state, advanced at each stamped write; wall-clock time is
  non-decreasing, which the strictly increasing clock refines.
* Exceptions: the Python operations under consideration catch their own
  exceptions; the embedding models the no-I/O-error paths as total
  functions, and collaborator exceptions in the orchestrator as explicit
  outcome values (`ExtractOutcome.raised`, `SendOutcome.raised`).
-/

namespace EmailCli

/-- Char-list prefix test: `hasPre needle hay` is true when `hay` starts
with `needle`. Helper for substring search. -/
def hasPre : List Char → List Char → Bool
  | [], _ => true
  | _ :: _, [] => false
  | a :: as, b :: bs => a == b && hasPre as bs

/-- Substring test on char lists: does `hay` contain `needle` as a
contiguous run?  Models Python `needle in hay` and pandas
`.str.contains(re.escape(needle))` (the pattern is escaped, hence a
literal substring). The empty needle is contained in everything, exactly
as for Python `in` and for an empty regex pattern. -/
def containsSub : List Char → List Char → Bool
  | [], needle => hasPre needle []
  | h :: t, needle => hasPre needle (h :: t) || containsSub t needle

/-- Uppercase a char list (Python `str.upper()`; ASCII inputs). -/
def upperL (l : List Char) : List Char := l.map Char.toUpper

/-- Lowercase a char list (Python `str.lower()`; ASCII inputs). -/
def lowerL (l : List Char) : List Char := l.map Char.toLower

/-- Strip leading and trailing whitespace (Python `str.strip()`). -/
def trimL (l : List Char) : List Char :=
  ((l.dropWhile Char.isWhitespace).reverse.dropWhile Char.isWhitespace).reverse

/-- Case-insensitive substring test (pandas `.str.contains(..., case=False)`). -/
def containsCI (hay needle : List Char) : Bool :=
  containsSub (upperL hay) (upperL needle)

/-- ASCII uppercase-letter test (regex class `[A-Z]`). -/
def isUpperC (c : Char) : Bool := 'A' ≤ c && c ≤ 'Z'

/-- One row of the loaded price sheet (`self.price_data`): the columns
`find_product` and its helpers actually read. `brand = none` models a NaN
Brand cell; the Description column is non-NaN after `load_price_list`
filtering. -/
structure CatalogRow where
  itemNo : String
  brand : Option String
  description : String
  price : String
deriving DecidableEq, Repr

/-- The Brand cell as pandas `astype(str)` renders it: NaN becomes "nan". -/
def brandStr (r : CatalogRow) : List Char :=
  match r.brand with
  | some b => b.toList
  | none => "nan".toList

/-- The Brand cell as pandas `.fillna('')` renders it: NaN becomes "". -/
def brandFill (r : CatalogRow) : List Char :=
  match r.brand with
  | some b => b.toList
  | none => []

/-- Python `sku.replace('#', '').strip()` from `_find_by_exact_sku` /
`_find_by_partial_sku`. -/
def cleanSku (s : String) : List Char :=
  trimL (s.toList.filter (fun c => c ≠ '#'))

/-- One `foldr` step grouping a char list into maximal digit runs and
maximal uppercase-letter runs; other characters insert a break (the empty
list) between runs. Models `re.findall(r'\d+|[A-Z]+', s)`. -/
def runStep (c : Char) (acc : List (List Char)) : List (List Char) :=
  if c.isDigit || isUpperC c then
    match acc with
    | (d :: ds) :: rest =>
      if (c.isDigit && d.isDigit) || (isUpperC c && isUpperC d) then
        (c :: d :: ds) :: rest
      else [c] :: (d :: ds) :: rest
    | _ => [c] :: acc
  else
    match acc with
    | [] :: _ => acc
    | _ => [] :: acc

/-- Tokenize into alphabetic/numeric runs: `re.findall(r'\d+|[A-Z]+', s)`
applied to an (already uppercased) char list. -/
def tokenRuns (l : List Char) : List (List Char) :=
  (l.foldr runStep []).filter (fun r => !r.isEmpty)

/-- Tier 1, `_find_by_exact_sku`: strip '#' and whitespace from the input
SKU and compare for equality against the stripped SKU column, returning
the first matching row (`matches.iloc[0]`). The sheet's single SKU column
is `LATICRETE Item No`. -/
def findByExactSku (cat : List CatalogRow) (sku : String) : Option CatalogRow :=
  let clean := cleanSku sku
  cat.find? (fun r => trimL r.itemNo.toList == clean)

/-- Tier 2, `_find_by_partial_sku`: tokenize the cleaned, uppercased input
SKU and each row SKU into digit/letter runs; accept the first row for
which at least 70% of the input tokens occur among the row tokens
(`matching_parts >= len(sku_parts) * 0.7`, the float threshold modelled
exactly over `ℚ`). Returns `none` when the input yields no tokens. -/
def findByPartSku (cat : List CatalogRow) (sku : String) : Option CatalogRow :=
  let parts := tokenRuns (upperL (cleanSku sku))
  if parts.isEmpty then none
  else
    cat.find? (fun r =>
      let rowParts := tokenRuns (trimL (upperL r.itemNo.toList))
      let matching := parts.countP (fun p => rowParts.contains p)
      decide (10 * matching ≥ 7 * parts.length))

/-- Brand + ' ' + Description with `fillna('')`, stripped — the
`_combined_name` column built inside `_find_by_exact_name`. -/
def combinedName (r : CatalogRow) : List Char :=
  trimL (brandFill r ++ [' '] ++ r.description.toList)

/-- Tier 3, `_find_by_exact_name`: case-insensitive literal substring of
the raw name, checked against Description, then Brand (NaN rendered
"nan" by `astype(str)`), then the combined Brand+Description column;
first matching row each time. An empty raw name matches every row, since
the escaped empty pattern is contained in every string. -/
def findByExactName (cat : List CatalogRow) (productName : String) : Option CatalogRow :=
  let n := productName.toList
  match cat.find? (fun r => containsCI r.description.toList n) with
  | some r => some r
  | none =>
    match cat.find? (fun r => containsCI (brandStr r) n) with
    | some r => some r
    | none => cat.find? (fun r => containsCI (combinedName r) n)

/-- Stop-word set of `_extract_keywords` (compared lowercased). -/
def stopWords : List (List Char) :=
  ["the", "a", "an", "and", "or", "with", "for", "in", "on", "at", "to",
   "of", "various", "sizes", "size", "laticrete", "-", "(", ")", "x"].map
    String.toList

/-- Python `re.sub(r'[^A-Z0-9]', '', word)`: keep uppercase letters and
digits only. -/
def cleanWord (w : List Char) : List Char :=
  w.filter (fun c => isUpperC c || c.isDigit)

/-- One `foldr` step splitting a char list on whitespace runs
(Python `str.split()` with no argument). -/
def splitStep (c : Char) (acc : List (List Char)) : List (List Char) :=
  if c.isWhitespace then
    match acc with
    | [] :: _ => acc
    | _ => [] :: acc
  else
    match acc with
    | w :: rest => (c :: w) :: rest
    | [] => [[c]]

/-- Whitespace split discarding empty fields (Python `str.split()`). -/
def splitWS (l : List Char) : List (List Char) :=
  (l.foldr splitStep []).filter (fun w => !w.isEmpty)

/-- Scanner for `re.findall(r'\d+[xX]\d+', text)`: maximal digit run,
one 'x' or 'X', maximal digit run, scanning left to right without
overlap. The fuel argument bounds recursion by the input length. -/
def findDimsAux : Nat → List Char → List (List Char)
  | 0, _ => []
  | _ + 1, [] => []
  | fuel + 1, c :: cs =>
    if c.isDigit then
      let d1 := (c :: cs).takeWhile Char.isDigit
      let rest := (c :: cs).dropWhile Char.isDigit
      match rest with
      | x :: rs =>
        if (x == 'x' || x == 'X') && !(rs.takeWhile Char.isDigit).isEmpty then
          (d1 ++ (x :: rs.takeWhile Char.isDigit)) ::
            findDimsAux fuel (rs.dropWhile Char.isDigit)
        else findDimsAux fuel (x :: rs)
      | [] => []
    else findDimsAux fuel cs

/-- Dimension tokens such as "12x12": `re.findall(r'\d+[xX]\d+', text)`
on the original (not uppercased) text. -/
def findDims (l : List Char) : List (List Char) := findDimsAux l.length l

/-- `_extract_keywords`: uppercase, whitespace-split, strip each word to
`[A-Z0-9]`, drop empties, stop words (compared lowercased) and words of
length at most 2; then append dimension tokens found in the original
text. -/
def extractKeywords (text : String) : List (List Char) :=
  let words := splitWS (upperL text.toList)
  let kws := (words.map cleanWord).filter
    (fun w => !w.isEmpty && !stopWords.contains (lowerL w) && w.length > 2)
  kws ++ findDims text.toList

/-- The `_search_text` / `_fuzzy_text` column: Brand (fillna '') + ' ' +
Description, uppercased, not stripped. -/
def searchText (r : CatalogRow) : List Char :=
  upperL (brandFill r ++ [' '] ++ r.description.toList)

/-- Score values are exact rationals represented as numerator/denominator
pairs with positive denominator; `Frac.gt` and `Frac.geSixTenths` compare
them by cross-multiplication, modelling the Python float comparisons
`score > best_score` and `score >= 0.6` exactly. -/
structure Frac where
  num : Nat
  den : Nat
deriving DecidableEq, Repr

/-- Strict comparison of two scores (`score > best_score`). -/
def Frac.gt (a b : Frac) : Bool := decide (a.num * b.den > b.num * a.den)

/-- Threshold test `score >= 0.6` of the keyword and fuzzy tiers. -/
def Frac.geSixTenths (a : Frac) : Bool := decide (10 * a.num ≥ 6 * a.den)

/-- Best-scoring row loop shared by `_find_by_keywords` and
`_find_by_fuzzy_match`: iterate rows in order keeping the first row whose
score strictly exceeds the best so far and is at least 0.6
(`score > best_score and score >= 0.6`, with `best_score` starting at
0). -/
def bestByScore (cat : List CatalogRow) (score : CatalogRow → Frac) :
    Option CatalogRow :=
  (cat.foldl
      (fun best r =>
        let s := score r
        match best with
        | none =>
          if s.gt ⟨0, 1⟩ && s.geSixTenths then some (r, s) else none
        | some (b, bs) =>
          if s.gt bs && s.geSixTenths then some (r, s) else some (b, bs))
      none).map Prod.fst

/-- Tier 4, `_find_by_keywords`: extract keywords from the raw name; a
row's score is the fraction of keywords occurring as substrings of its
search text; accept the best row with score at least 0.6. Returns `none`
when no keywords are extracted. -/
def findByKeywords (cat : List CatalogRow) (productName : String) : Option CatalogRow :=
  let keywords := extractKeywords productName
  if keywords.isEmpty then none
  else
    bestByScore cat
      (fun r => ⟨keywords.countP (fun kw => containsSub (searchText r) kw),
        keywords.length⟩)

/-- Length of the common prefix of two char lists. -/
def commonPre : List Char → List Char → Nat
  | a :: as, b :: bs => if a == b then commonPre as bs + 1 else 0
  | _, _ => 0

/-- Longest matching block of `difflib.SequenceMatcher` (no junk for
these short strings): the longest common contiguous run, and among runs
of maximal length the one starting earliest in `a`, then earliest in
`b`; `(0, 0, 0)` when there is none. -/
def longestMatch (a b : List Char) : Nat × Nat × Nat :=
  ((List.range a.length).flatMap fun i =>
      (List.range b.length).map fun j => (i, j)).foldl
    (fun best p =>
      let k := commonPre (a.drop p.1) (b.drop p.2)
      if k > best.2.2 then (p.1, p.2, k) else best)
    (0, 0, 0)

/-- Total size of the matching blocks of `difflib.SequenceMatcher`:
recursively take the longest matching block and recurse on the pieces to
its left and right. The fuel argument bounds the recursion depth by the
total input length. -/
def matchingTotal : Nat → List Char → List Char → Nat
  | 0, _, _ => 0
  | fuel + 1, a, b =>
    let m := longestMatch a b
    if m.2.2 == 0 then 0
    else
      matchingTotal fuel (a.take m.1) (b.take m.2.1) + m.2.2 +
        matchingTotal fuel (a.drop (m.1 + m.2.2)) (b.drop (m.2.1 + m.2.2))

/-- `difflib.SequenceMatcher(None, a, b).ratio()`: `2*M/T` where `M` is
the total matched size and `T` the total length; 1 when both inputs are
empty. -/
def fuzzyRatio (a b : List Char) : Frac :=
  if a.length + b.length = 0 then ⟨1, 1⟩
  else ⟨2 * matchingTotal (a.length + b.length) a b, a.length + b.length⟩

/-- Tier 5, `_find_by_fuzzy_match`: similarity of the uppercased raw name
against each row's combined text; accept the best row with ratio at least
0.6. -/
def findByFuzzy (cat : List CatalogRow) (productName : String) : Option CatalogRow :=
  let pu := upperL productName.toList
  bestByScore cat (fun r => fuzzyRatio pu (searchText r))

/-- The matching tier that produced a resolution, named after the log
lines of `find_product` ("Found by exact SKU match", "Found by partial
SKU match", "Found by exact name match", "Found by keyword match",
"Found by fuzzy match"). -/
inductive MatchTier where
  | exactSku
  | partSku
  | exactName
  | keyword
  | fuzzy
deriving DecidableEq, Repr

/-- Control flow of `PriceListReader.find_product`, annotated with the
tier that matched: the SKU tiers run only when a SKU is supplied and
non-empty (Python `if sku:` truthiness), then the three name tiers, each
tier's first success returned immediately. -/
def findProductTiered (cat : List CatalogRow) (productName : String)
    (sku : Option String) : Option (CatalogRow × MatchTier) :=
  let skuStep : Option (CatalogRow × MatchTier) :=
    match sku with
    | none => none
    | some s =>
      if s.isEmpty then none
      else
        match findByExactSku cat s with
        | some r => some (r, MatchTier.exactSku)
        | none =>
          match findByPartSku cat s with
          | some r => some (r, MatchTier.partSku)
          | none => none
  match skuStep with
  | some rt => some rt
  | none =>
    match findByExactName cat productName with
    | some r => some (r, MatchTier.exactName)
    | none =>
      match findByKeywords cat productName with
      | some r => some (r, MatchTier.keyword)
      | none =>
        match findByFuzzy cat productName with
        | some r => some (r, MatchTier.fuzzy)
        | none => none

/-- `PriceListReader.find_product`: the resolved row, or `none` after all
tiers fail. (The Python function also returns `None` on an internal
exception; the embedding is the exception-free path, and the function
never raises to its caller.) -/
def findProduct (cat : List CatalogRow) (productName : String)
    (sku : Option String) : Option CatalogRow :=
  (findProductTiered cat productName sku).map Prod.fst

/-- `PriceListReader.find_best_match` with `return_alternatives=False`:
on success the resolved row tagged `result['match_confidence'] = 'high'`
— the same constant string for every tier — and `None` otherwise. (The
`return_alternatives=True` branch builds a candidate list and is not
modelled; no claim concerns it.) -/
def findBestMatch (cat : List CatalogRow) (productName : String)
    (sku : Option String) : Option (CatalogRow × String) :=
  (findProduct cat productName sku).map (fun r => (r, "high"))

/-! ## Order tracking store (`src/order_tracker.py`) -/

/-- One row of the `sent_orders` table, with the columns of
`_init_database`. `order_id` carries a UNIQUE constraint; `status`
defaults to "sent"; `created_at` and `sent_at` default to
CURRENT_TIMESTAMP, modelled by the store's logical clock. -/
structure OrderRecord where
  orderId : String
  emailSubject : String
  sentTo : String
  customerName : String
  tilewareProducts : Option String
  orderTotal : Option String
  formattedContent : Option String
  emailUid : Option String
  orderData : Option String
  status : String
  errorMessage : Option String
  rawEmailContent : Option String
  productType : Option String
  laticreteProducts : Option String
  createdAt : Nat
  sentAt : Nat
deriving DecidableEq, Repr

/-- One row of the append-only `order_processing_log` table. -/
structure LogEntry where
  orderId : String
  action : String
  details : String
  timestamp : Nat
deriving DecidableEq, Repr

/-- The SQLite state of an `OrderTracker`: the two tables plus the
logical clock supplying CURRENT_TIMESTAMP values. Each individual SQL
transaction is serialized by SQLite (and by the in-process lock), so an
execution is a sequence of the atomic operations below. -/
structure TrackerDB where
  orders : List OrderRecord
  log : List LogEntry
  clock : Nat
deriving DecidableEq, Repr

/-- A freshly initialized tracking database (`_init_database`). -/
def emptyDB : TrackerDB := ⟨[], [], 0⟩

/-- Number of `sent_orders` rows with the given order id. -/
def keyCount (db : TrackerDB) (k : String) : Nat :=
  db.orders.countP (fun r => r.orderId == k)

/-- `OrderTracker._log_action`: append one row to the processing log,
stamped with the current time. -/
def logAction (db : TrackerDB) (orderId action details : String) : TrackerDB :=
  { db with
    log := db.log ++ [⟨orderId, action, details, db.clock⟩],
    clock := db.clock + 1 }

/-- `OrderTracker.has_order_been_sent`: select the row with this order id
(at most one exists under the UNIQUE constraint; the query's
`ORDER BY created_at DESC LIMIT 1` then picks it); report
`(True, row)` and log a "duplicate_check"/"Order already sent" entry if
found, else `(False, None)` and log "Order not found". The row's status
column is not consulted. -/
def hasOrderBeenSent (db : TrackerDB) (orderId : String) :
    (Bool × Option OrderRecord) × TrackerDB :=
  match db.orders.find? (fun r => r.orderId == orderId) with
  | some r => ((true, some r), logAction db orderId "duplicate_check" "Order already sent")
  | none => ((false, none), logAction db orderId "duplicate_check" "Order not found")

/-- Email metadata dict as used by the tracker (`subject`, `body`,
`uid`). -/
structure EmailData where
  subject : String
  body : String
  uid : String
deriving DecidableEq, Repr

/-- Extracted order-details dict as consumed by `mark_order_as_sent`:
the fields it reads, with `tilewareJson` standing for
`json.dumps(order_details.get('tileware_products', []))` and
`detailsJson` for `json.dumps(order_details)`. -/
structure OrderDetails where
  orderId : String
  customerName : String
  total : String
  tilewareJson : String
  detailsJson : String
deriving DecidableEq, Repr

/-- `OrderTracker.mark_order_as_sent`: build the row and execute
`INSERT OR REPLACE INTO sent_orders ...` — SQLite REPLACE deletes any
row conflicting on the UNIQUE `order_id` and inserts the new row — then
log one "sent" action and return True. (On a storage exception the code
returns False instead; the embedding is the exception-free path.) -/
def markOrderAsSent (db : TrackerDB) (orderId : String) (emailData : EmailData)
    (orderDetails : OrderDetails) (formattedContent recipient : String) :
    Bool × TrackerDB :=
  let orderDataJson :=
    if hasPre "LAT-".toList orderId.toList then some orderDetails.detailsJson else none
  let newRec : OrderRecord :=
    { orderId := orderId
      emailSubject := emailData.subject
      sentTo := recipient
      customerName := orderDetails.customerName
      tilewareProducts := some orderDetails.tilewareJson
      orderTotal := some orderDetails.total
      formattedContent := some formattedContent
      emailUid := some emailData.uid
      orderData := orderDataJson
      status := "sent"
      errorMessage := none
      rawEmailContent := none
      productType := none
      laticreteProducts := none
      createdAt := db.clock
      sentAt := db.clock }
  let db1 := { db with orders := db.orders.filter (fun r => !(r.orderId == orderId)) ++ [newRec] }
  (true, logAction db1 orderId "sent" ("Order sent to " ++ recipient))

/-- Partially extracted order data passed to `save_failed_order`: the
`customer_name` it reads and `json` standing for
`json.dumps(partial_order_data)`. -/
structure PartData where
  customerName : String
  json : String
deriving DecidableEq, Repr

/-- `OrderTracker.save_failed_order`: first `SELECT id FROM sent_orders
WHERE order_id = ?`; if any row exists — whatever its status — return
False without writing; otherwise insert a status-"failed" row with
`sent_to = 'pending'`, log one "failed_save" action and return True. -/
def saveFailedOrder (db : TrackerDB) (orderId : String) (emailData : EmailData)
    (errorMessage : String) (productType : Option String) (partData : Option PartData) :
    Bool × TrackerDB :=
  if db.orders.any (fun r => r.orderId == orderId) then (false, db)
  else
    let newRec : OrderRecord :=
      { orderId := orderId
        emailSubject := emailData.subject
        sentTo := "pending"
        customerName := match partData with | some p => p.customerName | none => ""
        tilewareProducts := none
        orderTotal := none
        formattedContent := none
        emailUid := some emailData.uid
        orderData := partData.map PartData.json
        status := "failed"
        errorMessage := some errorMessage
        rawEmailContent := some emailData.body
        productType := productType
        laticreteProducts := none
        createdAt := db.clock
        sentAt := db.clock }
    let db1 := { db with orders := db.orders ++ [newRec] }
    (true, logAction db1 orderId "failed_save" ("Order saved as failed: " ++ errorMessage))

/-- `OrderTracker.update_order_status`: update every row with this order
id (at most one under the UNIQUE constraint), setting `status`, and —
when the corresponding arguments are supplied (the code tests Python
truthiness, under which `None` and the empty string are both absent) —
`sent_to` together with a fresh `sent_at`, and `error_message`. When a
row was updated, log one "status_update" action and return True; when no
row matched, return False without logging. -/
def updateOrderStatus (db : TrackerDB) (orderId status : String)
    (sentTo : Option String) (errorMessage : Option String) : Bool × TrackerDB :=
  if db.orders.any (fun r => r.orderId == orderId) then
    let orders' := db.orders.map (fun r =>
      if r.orderId == orderId then
        { r with
          status := status
          sentTo := match sentTo with | some s => s | none => r.sentTo
          sentAt := match sentTo with | some _ => db.clock | none => r.sentAt
          errorMessage := match errorMessage with | some e => some e | none => r.errorMessage }
      else r)
    let db1 := { db with orders := orders' }
    (true, logAction db1 orderId "status_update" ("Status changed to " ++ status))
  else (false, db)

/-- `OrderTracker.cleanup_old_records`: delete the order rows and the log
rows older than the cutoff (`datetime.now() - timedelta(days=days)`,
modelled as an input timestamp), returning how many rows were deleted.
No processing-log entry is written. -/
def cleanupOldRecords (db : TrackerDB) (cutoff : Nat) : Nat × TrackerDB :=
  let keptOrders := db.orders.filter (fun r => decide (cutoff ≤ r.createdAt))
  let keptLog := db.log.filter (fun e => decide (cutoff ≤ e.timestamp))
  ((db.orders.length - keptOrders.length) + (db.log.length - keptLog.length),
    { db with orders := keptOrders, log := keptLog })

/-! ## Orchestrator (`main.py`, `EmailProcessor`) -/

/-- Outcome of the extraction collaborator
(`claude_processor.extract_order_details` plus `validate_extraction`):
an exception, an extraction that fails validation, or valid details. -/
inductive ExtractOutcome where
  | raised
  | invalid
  | ok (details : OrderDetails)
deriving DecidableEq, Repr

/-- Outcome of the outbound send collaborator
(`email_sender.send_order_to_cs`): an exception, a False return, or
success. -/
inductive SendOutcome where
  | raised
  | failed
  | succeeded
deriving DecidableEq, Repr

/-- The collaborators consulted while processing one order: the
extraction result, the formatter's output
(`formatter.format_order(order_details)`), and the send result. -/
structure Collaborators where
  extract : ExtractOutcome
  formatted : String
  send : SendOutcome
deriving DecidableEq, Repr

/-- How `_process_tileware_order` ended, mirroring its log lines:
`collaboratorError` is the per-order `except` block (which only calls
`logger.error`), `invalidExtraction` the failed-validation warning,
`skippedDuplicate` the already-sent skip, `sendFailed` the False return
from the sender, `sentTracked` the success path. -/
inductive ProcessOutcome where
  | collaboratorError
  | invalidExtraction
  | skippedDuplicate
  | sendFailed
  | sentTracked
deriving DecidableEq, Repr

/-- `EmailProcessor._process_tileware_order`: extract, check the tracker
for "TW-" ++ order id and skip when already present, send, and on
success record via `mark_order_as_sent`. Any collaborator exception is
caught by the per-order `try/except`, which logs and returns without
touching the store — in particular `save_failed_order` is never
called. -/
def processTilewareOrder (db : TrackerDB) (em : EmailData) (c : Collaborators)
    (csEmail : String) : TrackerDB × ProcessOutcome :=
  match c.extract with
  | ExtractOutcome.raised => (db, ProcessOutcome.collaboratorError)
  | ExtractOutcome.invalid => (db, ProcessOutcome.invalidExtraction)
  | ExtractOutcome.ok d =>
    let key := "TW-" ++ d.orderId
    let chk := hasOrderBeenSent db key
    let db1 := chk.2
    if chk.1.1 then (db1, ProcessOutcome.skippedDuplicate)
    else
      match c.send with
      | SendOutcome.raised => (db1, ProcessOutcome.collaboratorError)
      | SendOutcome.failed => (db1, ProcessOutcome.sendFailed)
      | SendOutcome.succeeded =>
        let m := markOrderAsSent db1 key em d c.formatted csEmail
        (m.2, ProcessOutcome.sentTracked)

/-- The per-email loop of `EmailProcessor.process_emails`, for emails
whose product type is TileWare; each email is processed to completion
and the loop continues regardless of the previous email's outcome (the
loop body has its own `try/except ... continue`). The Laticrete branch
`_process_laticrete_order` has the same structure with key prefix
"LAT-". -/
def processEmails : TrackerDB → List (EmailData × Collaborators) → String →
    TrackerDB × List ProcessOutcome
  | db, [], _ => (db, [])
  | db, ec :: rest, csEmail =>
    let r := processTilewareOrder db ec.1 ec.2 csEmail
    let t := processEmails r.1 rest csEmail
    (t.1, r.2 :: t.2)

/-! ## Concrete fixtures used by the closed theorems -/

/-- The price-sheet row of the spec's partial-SKU scenario. -/
def rowPlatinum : CatalogRow :=
  ⟨"254-50G", none, "254 Platinum Multipurpose Thinset Gray 50lb", "45.99"⟩

/-- One-row catalog around `rowPlatinum`. -/
def catPlatinum : List CatalogRow := [rowPlatinum]

/-- A row reachable both by exact SKU and by keyword overlap. -/
def rowAlpha : CatalogRow := ⟨"111", none, "ALPHA WIDGET PRO", "1.00"⟩

/-- One-row catalog around `rowAlpha`. -/
def catAlpha : List CatalogRow := [rowAlpha]

/-- Email fixture for order 43333. -/
def emA : EmailData := ⟨"New customer order (43333)", "body A", "uid-1"⟩

/-- A second email fixture carrying the same order number. -/
def emB : EmailData := ⟨"New customer order (43333) resent", "body B", "uid-2"⟩

/-- Email fixture for order 55555. -/
def emC : EmailData := ⟨"New customer order (55555)", "body C", "uid-3"⟩

/-- Order-details fixture for order 43333. -/
def odA : OrderDetails := ⟨"43333", "Alice", "$10.00", "[]", "jsonA"⟩

/-- A second extraction of order 43333 with a different snapshot. -/
def odB : OrderDetails := ⟨"43333", "Alice", "$10.00", "[]", "jsonB"⟩

/-- Order-details fixture for order 55555. -/
def odC : OrderDetails := ⟨"55555", "Bob", "$20.00", "[]", "jsonC"⟩

/-! ## Helper lemmas -/

/-- The empty needle is a substring of everything (Python `'' in s`). -/
theorem containsSub_nil (l : List Char) : containsSub l [] = true := by
  cases l <;> simp [containsSub, hasPre]

/-- The duplicate check never modifies the `sent_orders` table. -/
theorem hasOrderBeenSent_orders_eq (db : TrackerDB) (k : String) :
    (hasOrderBeenSent db k).2.orders = db.orders := by
  unfold hasOrderBeenSent
  cases db.orders.find? (fun r => r.orderId == k) <;> rfl

/-- The duplicate-check flag is the existence of a row with the key. -/
theorem hasOrderBeenSent_fst_eq_any (db : TrackerDB) (k : String) :
    (hasOrderBeenSent db k).1.1 = db.orders.any (fun r => r.orderId == k) := by
  unfold hasOrderBeenSent
  cases hf : db.orders.find? (fun r => r.orderId == k) with
  | none =>
    have hall := List.find?_eq_none.mp hf
    have hany : db.orders.any (fun r => r.orderId == k) = false := by
      rw [List.any_eq_false]
      exact hall
    rw [hany]
  | some r =>
    have hm := List.mem_of_find?_eq_some hf
    have hp := List.find?_some hf
    have hany : db.orders.any (fun r => r.orderId == k) = true :=
      List.any_eq_true.mpr ⟨r, hm, hp⟩
    rw [hany]

/-- Rows matching a different key survive the REPLACE deletion. -/
theorem countP_filter_other (l : List OrderRecord) (k k' : String) (hne : k' ≠ k) :
    (l.filter (fun r => !(r.orderId == k))).countP (fun r => r.orderId == k') =
      l.countP (fun r => r.orderId == k') := by
  induction l with
  | nil => rfl
  | cons r t ih =>
    by_cases hk : r.orderId = k
    · have h1 : (r.orderId == k) = true := beq_iff_eq.mpr hk
      have h2 : (r.orderId == k') = false := by
        apply beq_eq_false_iff_ne.mpr
        intro hc
        exact hne (hc ▸ hk ▸ rfl)
      simp [List.filter_cons, List.countP_cons, h1, h2, ih]
    · have h1 : (r.orderId == k) = false := beq_eq_false_iff_ne.mpr hk
      simp [List.filter_cons, List.countP_cons, h1, ih]

/-- No row matching the key survives the REPLACE deletion. -/
theorem countP_filter_same (l : List OrderRecord) (k : String) :
    (l.filter (fun r => !(r.orderId == k))).countP (fun r => r.orderId == k) = 0 := by
  induction l with
  | nil => rfl
  | cons r t ih =>
    cases h : r.orderId == k <;> simp [List.filter_cons, List.countP_cons, h, ih]

/-- After `mark_order_as_sent` exactly one row carries the key. -/
theorem keyCount_markOrderAsSent (db : TrackerDB) (k : String) (em : EmailData)
    (od : OrderDetails) (fc rc : String) :
    keyCount (markOrderAsSent db k em od fc rc).2 k = 1 := by
  unfold keyCount markOrderAsSent logAction
  simp [List.countP_append, countP_filter_same, List.countP_cons]

/-- Rows with other keys are untouched by `mark_order_as_sent`. -/
theorem keyCount_markOrderAsSent_other (db : TrackerDB) (k k' : String)
    (em : EmailData) (od : OrderDetails) (fc rc : String) (hne : k' ≠ k) :
    keyCount (markOrderAsSent db k em od fc rc).2 k' = keyCount db k' := by
  unfold keyCount markOrderAsSent logAction
  have h2 : (k == k') = false := beq_eq_false_iff_ne.mpr (fun hc => hne hc.symm)
  simp [List.countP_append, countP_filter_other db.orders k k' hne, List.countP_cons, h2]

/-! ## Claim theorems -/

/-- The store after a first successful `mark_order_as_sent` for
orderKey "TW-43333". -/
def dbAfterFirstMark : TrackerDB :=
  (markOrderAsSent emptyDB "TW-43333" emA odA "first content" "cs@example.com").2

/-- C1 (code_bug demonstration): with a record for orderKey "TW-43333"
already in the store, a second `mark_order_as_sent` for the same key
returns True (not a business-level failure), replaces the existing
record with the new snapshot (the surviving record carries the second
call's formatted content), leaves exactly one record for the key, and
logs a plain "sent" action rather than a duplicate-detection entry —
the `INSERT OR REPLACE` upsert the spec forbids. -/
theorem markOrderAsSent_upserts_on_existing_key :
    (markOrderAsSent dbAfterFirstMark "TW-43333" emB odB "second content"
      "cs@example.com").1 = true ∧
    keyCount (markOrderAsSent dbAfterFirstMark "TW-43333" emB odB "second content"
      "cs@example.com").2 "TW-43333" = 1 ∧
    (((markOrderAsSent dbAfterFirstMark "TW-43333" emB odB "second content"
      "cs@example.com").2.orders.find? (fun r => r.orderId == "TW-43333")).map
      OrderRecord.formattedContent) = some (some "second content") ∧
    ((markOrderAsSent dbAfterFirstMark "TW-43333" emB odB "second content"
      "cs@example.com").2.log.getLast?.map LogEntry.action) = some "sent" := by decide

/-- C2 (confirmed): `find_product` tries the tiers in the strict order
exact SKU, partial SKU, exact name, keyword overlap, fuzzy similarity,
returning the first tier's match: each conjunct states that when every
earlier tier misses and a tier hits, that tier's row is the result. In
particular an exact-SKU hit is returned no matter what any later tier
would accept for a different catalog entry. -/
theorem findProduct_cascade_strict_order (cat : List CatalogRow) (name : String)
    (sku : Option String) :
    (∀ s e, sku = some s → s.isEmpty = false → findByExactSku cat s = some e →
      findProduct cat name sku = some e) ∧
    (∀ s e, sku = some s → s.isEmpty = false → findByExactSku cat s = none →
      findByPartSku cat s = some e → findProduct cat name sku = some e) ∧
    (∀ e, (∀ s, sku = some s → s.isEmpty = true ∨
        (findByExactSku cat s = none ∧ findByPartSku cat s = none)) →
      findByExactName cat name = some e → findProduct cat name sku = some e) ∧
    (∀ e, (∀ s, sku = some s → s.isEmpty = true ∨
        (findByExactSku cat s = none ∧ findByPartSku cat s = none)) →
      findByExactName cat name = none → findByKeywords cat name = some e →
      findProduct cat name sku = some e) ∧
    (∀ e, (∀ s, sku = some s → s.isEmpty = true ∨
        (findByExactSku cat s = none ∧ findByPartSku cat s = none)) →
      findByExactName cat name = none → findByKeywords cat name = none →
      findByFuzzy cat name = some e → findProduct cat name sku = some e) := by
  refine ⟨?_, ?_, ?_, ?_, ?_⟩
  · intro s e hs hne hex
    subst hs
    simp [findProduct, findProductTiered, hne, hex]
  · intro s e hs hne hex hpart
    subst hs
    simp [findProduct, findProductTiered, hne, hex, hpart]
  · intro e hsku hname
    cases sku with
    | none => simp [findProduct, findProductTiered, hname]
    | some s =>
      rcases hsku s rfl with hemp | ⟨h1, h2⟩
      · simp [findProduct, findProductTiered, hemp, hname]
      · simp [findProduct, findProductTiered, h1, h2, hname]
  · intro e hsku hname hkw
    cases sku with
    | none => simp [findProduct, findProductTiered, hname, hkw]
    | some s =>
      rcases hsku s rfl with hemp | ⟨h1, h2⟩
      · simp [findProduct, findProductTiered, hemp, hname, hkw]
      · simp [findProduct, findProductTiered, h1, h2, hname, hkw]
  · intro e hsku hname hkw hfz
    cases sku with
    | none => simp [findProduct, findProductTiered, hname, hkw, hfz]
    | some s =>
      rcases hsku s rfl with hemp | ⟨h1, h2⟩
      · simp [findProduct, findProductTiered, hemp, hname, hkw, hfz]
      · simp [findProduct, findProductTiered, h1, h2, hname, hkw, hfz]

/-- C2 witness: on a catalog whose only row has SKU "111", supplying SKU
"111" resolves through the exact-SKU conjunct of the cascade theorem. -/
theorem findProduct_cascade_strict_order_witness :
    findProduct catAlpha "whatever" (some "111") = some rowAlpha :=
  (findProduct_cascade_strict_order catAlpha "whatever" (some "111")).1 "111" rowAlpha
    rfl (by decide) (by decide)

/-- C3 counterexample: resolving the empty product name with no SKU on a
nonempty catalog does not return the no-match outcome — the escaped
empty pattern is a substring of every Description, so the exact-name
tier returns the first catalog row. -/
theorem findProduct_empty_name_returns_first_row :
    findProduct catPlatinum "" none = some rowPlatinum := by decide

/-- C3 amended: resolution is total (the Python function catches its own
exceptions and never raises), but an empty product name with no SKU
resolves to the FIRST row of any nonempty catalog via the exact-name
substring tier; only on an empty catalog does it return no match. -/
theorem findProduct_empty_name_behavior (r : CatalogRow) (rs : List CatalogRow) :
    findProduct (r :: rs) "" none = some r ∧
    findProduct ([] : List CatalogRow) "" none = none := by
  constructor
  · have hp : ∀ hay : List Char, containsCI hay [] = true := by
      intro hay
      simp [containsCI, upperL, containsSub_nil]
    simp [findProduct, findProductTiered, findByExactName, List.find?_cons, hp]
  · rfl

/-- C8 counterexample: the scenario input resolves, but the reported
match confidence is the constant label "high" attached by
`find_best_match` to every successful tier — not the numeric 0.85 the
claim states for the partial-SKU tier. -/
theorem scenario_254_reports_high_not_085 :
    findBestMatch catPlatinum "LATICRETE 254 Platinum Thinset - Gray 50lb"
      (some "#254-50-G") = some (rowPlatinum, "high") := by decide

/-- C8 amended: for the scenario catalog and input, the exact-SKU tier
fails ("254-50-G" is not equal to "254-50G"), the partial-SKU tier
accepts because at least 70% of the input SKU's token runs — here all
three of "254", "50", "G" — occur among the candidate's token runs, and
`find_product` resolves to that entry via the partial-SKU tier; the code
reports the uniform "high" label rather than a numeric 0.85. -/
theorem scenario_254_resolves_via_partial_sku_tier :
    findByExactSku catPlatinum "#254-50-G" = none ∧
    findByPartSku catPlatinum "#254-50-G" = some rowPlatinum ∧
    (let parts := tokenRuns (upperL (cleanSku "#254-50-G"))
     let rowParts := tokenRuns (trimL (upperL rowPlatinum.itemNo.toList))
     10 * parts.countP (fun p => rowParts.contains p) ≥ 7 * parts.length) ∧
    findProductTiered catPlatinum "LATICRETE 254 Platinum Thinset - Gray 50lb"
      (some "#254-50-G") = some (rowPlatinum, MatchTier.partSku) := by decide

/-- C4 counterexample: a resolution via the keyword tier (a lower, more
permissive tier) reports exactly the same confidence value as a
resolution via the exact-SKU tier — the constant string "high" — so a
lower tier's reported confidence is not below a higher tier's, and no
tier reports its claimed numeric value (1.0, 0.85, 0.75, score). -/
theorem confidence_constant_across_tiers :
    findProductTiered catAlpha "whatever" (some "111") =
      some (rowAlpha, MatchTier.exactSku) ∧
    findBestMatch catAlpha "whatever" (some "111") = some (rowAlpha, "high") ∧
    findProductTiered catAlpha "WIDGET ALPHA" none =
      some (rowAlpha, MatchTier.keyword) ∧
    findBestMatch catAlpha "WIDGET ALPHA" none = some (rowAlpha, "high") := by decide

/-- C4 amended: whatever tier a successful resolution comes from,
`find_best_match` reports the constant confidence label "high"; the code
produces no per-tier numeric confidences, so neither the claimed
tier-value equality nor strict cross-tier monotonicity holds. -/
theorem findBestMatch_reports_constant_high (cat : List CatalogRow) (name : String)
    (sku : Option String) (e : CatalogRow) (t : MatchTier)
    (h : findProductTiered cat name sku = some (e, t)) :
    findBestMatch cat name sku = some (e, "high") := by
  simp [findBestMatch, findProduct, h]

/-- C4 witness: the keyword-tier resolution of "WIDGET ALPHA" reports
"high". -/
theorem findBestMatch_reports_constant_high_witness :
    findBestMatch catAlpha "WIDGET ALPHA" none = some (rowAlpha, "high") :=
  findBestMatch_reports_constant_high catAlpha "WIDGET ALPHA" none rowAlpha
    MatchTier.keyword (by decide)

/-- Collaborator fixture whose outbound send raises. -/
def collabSendRaises : Collaborators :=
  ⟨ExtractOutcome.ok odA, "formatted A", SendOutcome.raised⟩

/-- Collaborator fixture for a fully successful order. -/
def collabOk : Collaborators :=
  ⟨ExtractOutcome.ok odC, "formatted C", SendOutcome.succeeded⟩

/-- C5 counterexample: in a run where the first order's send collaborator
raises, the exception is caught at the per-order boundary and the second
order is still processed to success — but the failure is only logged:
no record at all (in particular no recordFailed write) exists afterwards
for the failed order's key. -/
theorem collaborator_exception_logged_not_recorded :
    let r := processEmails emptyDB [(emA, collabSendRaises), (emC, collabOk)]
      "cs@example.com"
    r.2 = [ProcessOutcome.collaboratorError, ProcessOutcome.sentTracked] ∧
    keyCount r.1 "TW-43333" = 0 ∧
    keyCount r.1 "TW-55555" = 1 := by decide

/-- C5 amended: a collaborator exception (extraction or send) is caught
at the per-order boundary and never prevents the loop from processing
the subsequent orders, but it is only logged — the orchestrator performs
no `save_failed_order` write, leaving the order-records table unchanged
for that key. -/
theorem collaborator_failure_caught_continues (db : TrackerDB) (em : EmailData)
    (c : Collaborators) (cs : String) (d : OrderDetails) :
    (c.extract = ExtractOutcome.raised →
      processTilewareOrder db em c cs = (db, ProcessOutcome.collaboratorError)) ∧
    (c.extract = ExtractOutcome.ok d → c.send = SendOutcome.raised →
      db.orders.any (fun r => r.orderId == "TW-" ++ d.orderId) = false →
      (processTilewareOrder db em c cs).2 = ProcessOutcome.collaboratorError ∧
      (processTilewareOrder db em c cs).1.orders = db.orders) ∧
    (∀ rest, processEmails db ((em, c) :: rest) cs =
      ((processEmails (processTilewareOrder db em c cs).1 rest cs).1,
        (processTilewareOrder db em c cs).2 ::
          (processEmails (processTilewareOrder db em c cs).1 rest cs).2)) := by
  refine ⟨?_, ?_, ?_⟩
  · intro h
    simp [processTilewareOrder, h]
  · intro hx hs hn
    have hflag : (hasOrderBeenSent db ("TW-" ++ d.orderId)).1.1 = false := by
      rw [hasOrderBeenSent_fst_eq_any]
      exact hn
    constructor
    · simp [processTilewareOrder, hx, hs, hflag]
    · simp [processTilewareOrder, hx, hs, hflag, hasOrderBeenSent_orders_eq]
  · intro rest
    rfl

/-- C5 witness: a raising send on an empty store is caught, reported as
a collaborator error and leaves the order records unchanged. -/
theorem collaborator_failure_caught_continues_witness :
    (processTilewareOrder emptyDB emA collabSendRaises "cs@example.com").2 =
      ProcessOutcome.collaboratorError ∧
    (processTilewareOrder emptyDB emA collabSendRaises "cs@example.com").1.orders =
      emptyDB.orders :=
  (collaborator_failure_caught_continues emptyDB emA collabSendRaises
    "cs@example.com" odA).2.1 rfl rfl (by decide)

/-- C6 counterexample: after `save_failed_order` stores a failed record
for a key (so no sent record exists for it), a second
`save_failed_order` for the same key is rejected — refuting "rejected
exactly when a sent record already exists". -/
theorem saveFailedOrder_rejected_without_sent_record :
    let first := saveFailedOrder emptyDB "TW-99999" emA "extraction failed" none none
    let second := saveFailedOrder first.2 "TW-99999" emB "second failure" none none
    first.1 = true ∧
    (∀ r ∈ first.2.orders, r.status = "failed") ∧
    second.1 = false ∧ second.2 = first.2 := by decide

/-- C6 amended: `save_failed_order` succeeds and appends one
status-"failed" record exactly when NO record of any status exists for
the key; when any record exists — sent or failed — it is rejected and
writes nothing. -/
theorem saveFailedOrder_success_iff_no_record (db : TrackerDB) (k : String)
    (em : EmailData) (err : String) (pt : Option String) (pd : Option PartData) :
    ((saveFailedOrder db k em err pt pd).1 = true ↔
      db.orders.any (fun r => r.orderId == k) = false) ∧
    ((saveFailedOrder db k em err pt pd).1 = false →
      (saveFailedOrder db k em err pt pd).2 = db) ∧
    ((saveFailedOrder db k em err pt pd).1 = true →
      ∃ rec, (saveFailedOrder db k em err pt pd).2.orders = db.orders ++ [rec] ∧
        rec.orderId = k ∧ rec.status = "failed") := by
  cases h : db.orders.any (fun r => r.orderId == k) with
  | true =>
    refine ⟨?_, ?_, ?_⟩ <;> simp [saveFailedOrder, h]
  | false =>
    refine ⟨?_, ?_, ?_⟩
    · simp [saveFailedOrder, h]
    · simp [saveFailedOrder, h]
    · intro hs
      clear hs
      cases pd with
      | none =>
        exact ⟨{ orderId := k
                 emailSubject := em.subject
                 sentTo := "pending"
                 customerName := ""
                 tilewareProducts := none
                 orderTotal := none
                 formattedContent := none
                 emailUid := some em.uid
                 orderData := none
                 status := "failed"
                 errorMessage := some err
                 rawEmailContent := some em.body
                 productType := pt
                 laticreteProducts := none
                 createdAt := db.clock
                 sentAt := db.clock },
          by simp [saveFailedOrder, h, logAction], rfl, rfl⟩
      | some p =>
        exact ⟨{ orderId := k
                 emailSubject := em.subject
                 sentTo := "pending"
                 customerName := p.customerName
                 tilewareProducts := none
                 orderTotal := none
                 formattedContent := none
                 emailUid := some em.uid
                 orderData := some p.json
                 status := "failed"
                 errorMessage := some err
                 rawEmailContent := some em.body
                 productType := pt
                 laticreteProducts := none
                 createdAt := db.clock
                 sentAt := db.clock },
          by simp [saveFailedOrder, h, logAction], rfl, rfl⟩

/-- C6 witness: on an empty store a failed save succeeds and appends one
failed record. -/
theorem saveFailedOrder_success_iff_no_record_witness :
    ∃ rec, (saveFailedOrder emptyDB "TW-99998" emA "boom" none none).2.orders =
      emptyDB.orders ++ [rec] ∧ rec.orderId = "TW-99998" ∧ rec.status = "failed" :=
  (saveFailedOrder_success_iff_no_record emptyDB "TW-99998" emA "boom" none
    none).2.2 (by decide)

/-- C7 counterexample: `cleanup_old_records` is a mutation that deletes
records yet appends no processing-log entry — on this store it removes
the only order record (and the old log rows) while writing nothing to
the log. -/
theorem cleanup_deletes_without_logging :
    let db1 := (markOrderAsSent emptyDB "TW-1" emA odA "content" "cs@example.com").2
    let res := cleanupOldRecords db1 10
    db1.orders.length = 1 ∧ res.2.orders = [] ∧ res.1 = 2 ∧ res.2.log = [] := by decide

/-- C7 amended: the record-writing mutations — `mark_order_as_sent`,
a successful `save_failed_order`, and a successful `update_order_status`
(which implements the pending/failed/sent status transitions) — each
append exactly one processing-log entry for the key, timestamped no
earlier than every existing entry; record deletion via
`cleanup_old_records` appends none (and deletes old log entries). -/
theorem mutation_appends_one_ordered_log_entry (db : TrackerDB) (k : String)
    (em : EmailData) (od : OrderDetails) (fc rc err st : String) (pt : Option String)
    (pd : Option PartData) (sTo errM : Option String)
    (h : ∀ e ∈ db.log, e.timestamp < db.clock) :
    (∃ en, (markOrderAsSent db k em od fc rc).2.log = db.log ++ [en] ∧
      en.orderId = k ∧ ∀ e ∈ db.log, e.timestamp ≤ en.timestamp) ∧
    ((saveFailedOrder db k em err pt pd).1 = true →
      ∃ en, (saveFailedOrder db k em err pt pd).2.log = db.log ++ [en] ∧
        en.orderId = k ∧ ∀ e ∈ db.log, e.timestamp ≤ en.timestamp) ∧
    ((updateOrderStatus db k st sTo errM).1 = true →
      ∃ en, (updateOrderStatus db k st sTo errM).2.log = db.log ++ [en] ∧
        en.orderId = k ∧ ∀ e ∈ db.log, e.timestamp ≤ en.timestamp) := by
  have hle : ∀ e ∈ db.log, e.timestamp ≤ db.clock := fun e he => le_of_lt (h e he)
  refine ⟨?_, ?_, ?_⟩
  · exact ⟨⟨k, "sent", "Order sent to " ++ rc, db.clock⟩,
      by simp [markOrderAsSent, logAction], rfl, hle⟩
  · intro hs
    cases ha : db.orders.any (fun r => r.orderId == k) with
    | true => simp [saveFailedOrder, ha] at hs
    | false =>
      exact ⟨⟨k, "failed_save", "Order saved as failed: " ++ err, db.clock⟩,
        by simp [saveFailedOrder, ha, logAction], rfl, hle⟩
  · intro hs
    cases ha : db.orders.any (fun r => r.orderId == k) with
    | true =>
      exact ⟨⟨k, "status_update", "Status changed to " ++ st, db.clock⟩,
        by simp [updateOrderStatus, ha, logAction], rfl, hle⟩
    | false => simp [updateOrderStatus, ha] at hs

/-- C7 witness: marking an order as sent on the fresh store appends
exactly one ordered log entry. -/
theorem mutation_appends_one_ordered_log_entry_witness :
    ∃ en, (markOrderAsSent emptyDB "TW-7" emA odA "content" "cs@example.com").2.log =
      emptyDB.log ++ [en] ∧ en.orderId = "TW-7" ∧
      ∀ e ∈ emptyDB.log, e.timestamp ≤ en.timestamp :=
  (mutation_appends_one_ordered_log_entry emptyDB "TW-7" emA odA "content"
    "cs@example.com" "err" "sent" none none none none (by decide)).1

/-- Any serialization of N racing `mark_order_as_sent` callers on one
orderKey: each call is atomic (the in-process lock plus SQLite
serialization), so a race is a sequence of calls. -/
def runMarks (k : String) :
    TrackerDB → List (EmailData × OrderDetails × String × String) → TrackerDB
  | db, [] => db
  | db, c :: rest =>
    runMarks k (markOrderAsSent db k c.1 c.2.1 c.2.2.1 c.2.2.2).2 rest

/-- C9 counterexample: the serialization of two racing
`has_order_been_sent` callers in which both check before either records
— the check does not reserve the key, so both observe
alreadySent=false, refuting "two racing callers on the same key never
both observe alreadySent=false". -/
theorem racing_duplicate_checks_both_observe_false :
    let c1 := hasOrderBeenSent emptyDB "TW-43333"
    let c2 := hasOrderBeenSent c1.2 "TW-43333"
    c1.1.1 = false ∧ c2.1.1 = false := by decide

/-- C9 amended: in every serialization, N ≥ 1 racing
`mark_order_as_sent` callers on one key leave exactly one record for
that key (the `order_id` UNIQUE constraint with REPLACE), and records
under other keys are untouched; but racing duplicate CHECKS can still
both observe alreadySent=false before either caller records. -/
theorem racing_recordSent_single_record (k : String) (db : TrackerDB)
    (calls : List (EmailData × OrderDetails × String × String)) :
    (calls ≠ [] → keyCount (runMarks k db calls) k = 1) ∧
    (∀ k', k' ≠ k → keyCount (runMarks k db calls) k' = keyCount db k') := by
  induction calls generalizing db with
  | nil => exact ⟨fun hc => absurd rfl hc, fun k' _ => rfl⟩
  | cons c rest ih =>
    constructor
    · intro _
      cases rest with
      | nil =>
        simpa [runMarks] using keyCount_markOrderAsSent db k c.1 c.2.1 c.2.2.1 c.2.2.2
      | cons c2 r2 =>
        have hrec := (ih (markOrderAsSent db k c.1 c.2.1 c.2.2.1 c.2.2.2).2).1 (by simp)
        simpa [runMarks] using hrec
    · intro k' hk
      have h1 := (ih (markOrderAsSent db k c.1 c.2.1 c.2.2.1 c.2.2.2).2).2 k' hk
      have h2 := keyCount_markOrderAsSent_other db k k' c.1 c.2.1 c.2.2.1 c.2.2.2 hk
      calc keyCount (runMarks k db (c :: rest)) k'
          = keyCount (runMarks k (markOrderAsSent db k c.1 c.2.1 c.2.2.1 c.2.2.2).2 rest) k' := rfl
        _ = keyCount (markOrderAsSent db k c.1 c.2.1 c.2.2.1 c.2.2.2).2 k' := h1
        _ = keyCount db k' := h2

/-- C9 witness: two racing recordSent callers on "TW-43333" leave
exactly one record for the key. -/
theorem racing_recordSent_single_record_witness :
    keyCount (runMarks "TW-43333" emptyDB
      [(emA, odA, "first", "cs@example.com"), (emB, odB, "second", "cs@example.com")])
      "TW-43333" = 1 :=
  (racing_recordSent_single_record "TW-43333" emptyDB
    [(emA, odA, "first", "cs@example.com"),
     (emB, odB, "second", "cs@example.com")]).1 (by decide)

/-- C10 (confirmed): `has_order_been_sent` reports alreadySent=true
exactly when ANY record with that key exists, regardless of its status
column; in particular a key stored by `save_failed_order` (status
"failed", never sent) is afterwards reported as already sent, and the
orchestrator's normal path then skips the order — returning after the
duplicate check, touching no record and attempting no send. -/
theorem duplicate_check_ignores_status (db : TrackerDB) (k : String) :
    ((hasOrderBeenSent db k).1.1 = db.orders.any (fun r => r.orderId == k)) ∧
    (∀ em err pt pd, (saveFailedOrder db k em err pt pd).1 = true →
      (hasOrderBeenSent (saveFailedOrder db k em err pt pd).2 k).1.1 = true) ∧
    (∀ em c cs d, c.extract = ExtractOutcome.ok d →
      db.orders.any (fun r => r.orderId == "TW-" ++ d.orderId) = true →
      (processTilewareOrder db em c cs).2 = ProcessOutcome.skippedDuplicate ∧
      (processTilewareOrder db em c cs).1.orders = db.orders) := by
  refine ⟨hasOrderBeenSent_fst_eq_any db k, ?_, ?_⟩
  · intro em err pt pd hs
    cases ha : db.orders.any (fun r => r.orderId == k) with
    | true => simp [saveFailedOrder, ha] at hs
    | false =>
      rw [hasOrderBeenSent_fst_eq_any]
      simp [saveFailedOrder, ha, logAction, List.any_append]
  · intro em c cs d hx hany
    have hflag : (hasOrderBeenSent db ("TW-" ++ d.orderId)).1.1 = true := by
      rw [hasOrderBeenSent_fst_eq_any]
      exact hany
    constructor
    · simp [processTilewareOrder, hx, hflag]
    · simp [processTilewareOrder, hx, hflag, hasOrderBeenSent_orders_eq]

/-- C10 witness: a key saved as failed is reported as already sent by
the duplicate check. -/
theorem duplicate_check_ignores_status_witness :
    (hasOrderBeenSent (saveFailedOrder emptyDB "TW-88888" emA "boom" none none).2
      "TW-88888").1.1 = true :=
  (duplicate_check_ignores_status emptyDB "TW-88888").2.1 emA "boom" none none
    (by decide)

end EmailCli
